import Mathlib

/-!
Verification of the `YaPanoramaComponent` widget of `angular8-yandex-maps`
(src/projects/angular8-yandex-maps/src/lib/components/ya-panorama/ya-panorama.component.ts).

The component wraps one native `ymaps.panorama.Player` entity.  We embed the
component shallowly: the declarative inputs (`point`, `layer`, `options`), the
native-call trace the component issues to the Yandex Maps API, the lifecycle
hooks (`ngOnInit`, `ngOnChanges` via `_updatePanorama`, `ngOnDestroy`), the
script-readiness callback (`_initScript` subscribing through an rxjs
`Subscription`, whose semantics we embed: a callback fires only while the
subscription is still subscribed), panorama creation (`_createPanorama`) and the
event-listener table (`addEventListeners`).  Errors thrown by the component are
modelled as explicit error values returned next to the trace of native calls
made before the throw.
-/

namespace YaPanorama

/-- Coordinates (`point: number[]`); the numeric values are opaque pass-through
data for the component, embedded as a list of integers. -/
abbrev Point := List Int

/-- The `layer` input: `'yandex#panorama' | 'yandex#airPanorama'`. -/
inductive PanoramaLayer
  | yandexPanorama
  | yandexAirPanorama
  deriving DecidableEq, Repr

/-- The `options: any` bag; opaque to the component, never introspected. -/
structure PlayerOptions where
  raw : Nat
  deriving DecidableEq, Repr

/-- A native panorama object returned by `ymaps.panorama.locate`. -/
structure Panorama where
  pid : Nat
  deriving DecidableEq, Repr

/-- The native `ymaps.panorama.Player`, recorded by its construction arguments
`new ymaps.panorama.Player(id, panorama[0], this.options)`.  The panorama
argument is an `Option` because `panorama[0]` is `undefined` when `locate`
resolves with an empty array. -/
structure Player where
  containerId : String
  panorama : Option Panorama
  options : Option PlayerOptions
  deriving DecidableEq, Repr

/-- A raw native event object (`ymaps.Event`), opaque. -/
structure NativeEvent where
  eid : Nat
  deriving DecidableEq, Repr

/-- Calls the component can issue against the native API surface.
`moveTo` carries the optional layer argument the real
`panorama.Player.moveTo(point, options)` accepts, so that "moveTo called
without a layer" is expressible; `playerDestroy` is the explicit disposal
method `panorama.Player.destroy` the native API exposes. -/
inductive NativeCall
  | moveTo (point : Point) (layer : Option PanoramaLayer)
  | construct (containerId : String) (panorama : Option Panorama)
      (options : Option PlayerOptions)
  | eventsAdd (name : String)
  | playerDestroy
  deriving DecidableEq, Repr

/-- One entry of an Angular `SimpleChanges` record. -/
structure SimpleChange (α : Type) where
  previousValue : Option α
  currentValue : α
  deriving DecidableEq, Repr

/-- The Angular `SimpleChanges` object restricted to the three inputs of the
component; a field is `none` exactly when the input is absent from the change
set (`changes.x === undefined` in the source). -/
structure SimpleChanges where
  point : Option (SimpleChange Point)
  layer : Option (SimpleChange PanoramaLayer)
  options : Option (SimpleChange PlayerOptions)
  deriving DecidableEq, Repr

/-- The two errors `_updatePanorama` can throw. -/
inductive ReconcileError
  | layerWithoutPoint
  | optionsAfterInit
  deriving DecidableEq, Repr

/-- The error `_checkRequiredInputs` can throw (`Point is required`). -/
inductive InitError
  | pointRequired
  deriving DecidableEq, Repr

/-- Embedding of `_updatePanorama(changes)`.  Returns the list of native calls
performed together with the error thrown, if any.  Faithful to the source
order: an early return when no player exists; then `if (point)
player.moveTo(point.currentValue)` (the real `moveTo` takes an optional layer
argument, which the source never passes, hence `none`); then
`if (layer && point === undefined) throw`; then `if (options) throw`. -/
def updatePanorama (player : Option Player) (changes : SimpleChanges) :
    List NativeCall × Option ReconcileError :=
  match player with
  | none => ([], none)
  | some _ =>
    let moveCalls : List NativeCall :=
      match changes.point with
      | some point => [NativeCall.moveTo point.currentValue none]
      | none => []
    if changes.layer.isSome && changes.point.isNone then
      (moveCalls, some ReconcileError.layerWithoutPoint)
    else if changes.options.isSome then
      (moveCalls, some ReconcileError.optionsAfterInit)
    else
      (moveCalls, none)

/-- Output channels of the component: the `ready` emitter plus one emitter per
native event bridged by `addEventListeners` (the `error` native event goes to
the `yaerror` output). -/
inductive OutputChannel
  | ready
  | destroy
  | directionchange
  | yaerror
  | fullscreenenter
  | fullscreenexit
  | markercollapse
  | markerexpand
  | markermouseenter
  | markermouseleave
  | panoramachange
  | spanchange
  deriving DecidableEq, Repr

/-- One entry of the listener table (`interfaces/listener`): a native event
name, the output emitter it republishes to, and the optional
`runOutsideAngular` flag (unset, hence falsy, for every entry of this
component). -/
structure Listener where
  name : String
  emitter : OutputChannel
  runOutsideAngular : Bool
  deriving DecidableEq, Repr

/-- The static listener table built inside `addEventListeners`, in source
order. -/
def listeners : List Listener :=
  [ ⟨"destroy", OutputChannel.destroy, false⟩,
    ⟨"directionchange", OutputChannel.directionchange, false⟩,
    ⟨"error", OutputChannel.yaerror, false⟩,
    ⟨"fullscreenenter", OutputChannel.fullscreenenter, false⟩,
    ⟨"fullscreenexit", OutputChannel.fullscreenexit, false⟩,
    ⟨"markercollapse", OutputChannel.markercollapse, false⟩,
    ⟨"markerexpand", OutputChannel.markerexpand, false⟩,
    ⟨"markermouseenter", OutputChannel.markermouseenter, false⟩,
    ⟨"markermouseleave", OutputChannel.markermouseleave, false⟩,
    ⟨"panoramachange", OutputChannel.panoramachange, false⟩,
    ⟨"spanchange", OutputChannel.spanchange, false⟩ ]

/-- The event envelope (`YaEvent`): `{ event, target: player, ymaps }`.  The
global `ymaps` namespace handle carries no structure of its own, embedded as
`Unit`. -/
structure YaEvent where
  event : NativeEvent
  target : Player
  ymapsHandle : Unit
  deriving DecidableEq, Repr

/-- The envelope builder `fn` inside `addEventListeners`:
`(event) => ({ event, target: player, ymaps })`, constructed fresh per
dispatched event for the player captured at registration time. -/
def buildEnvelope (player : Player) (event : NativeEvent) : YaEvent :=
  ⟨event, player, ()⟩

/-- The `ready` envelope (`YaReadyEvent`): `{ ymaps, target: player }`. -/
structure YaReadyEvent where
  ymapsHandle : Unit
  target : Player
  deriving DecidableEq, Repr

/-- The native registrations performed by `addEventListeners`: one
`player.events.add(name, handler)` call per table entry, in table order. -/
def addEventListenersCalls : List NativeCall :=
  listeners.map fun l => NativeCall.eventsAdd l.name

/-- The per-widget state we track: the declarative inputs, whether the `_sub`
`Subscription` is still subscribed, whether a script-readiness wait was
registered (`_initScript` ran), the `_player` field, the trace of native calls
issued so far, and the events emitted on the `ready` output. -/
structure PanoramaState where
  point : Option Point
  layer : Option PanoramaLayer
  options : Option PlayerOptions
  subActive : Bool
  awaitingScript : Bool
  player : Option Player
  nativeCalls : List NativeCall
  readyEmits : List YaReadyEvent
  deriving DecidableEq, Repr

/-- A freshly constructed component with the given inputs: nothing subscribed,
no script wait, no player, no native calls, no `ready` emissions. -/
def initialState (point : Option Point) (layer : Option PanoramaLayer)
    (options : Option PlayerOptions) : PanoramaState :=
  ⟨point, layer, options, false, false, none, [], []⟩

/-- Embedding of `_checkRequiredInputs`: throws when `point` is `undefined` or
`null` (both collapse to `none`). -/
def checkRequiredInputs (point : Option Point) : Option InitError :=
  match point with
  | none => some InitError.pointRequired
  | some _ => none

/-- Embedding of `ngOnInit`: creates `_sub = new Subscription()`, then
`_checkRequiredInputs()` (which may throw, aborting before `_initScript`),
then `_initScript()` which registers the readiness wait and adds it to
`_sub`. -/
def ngOnInit (s : PanoramaState) : PanoramaState × Option InitError :=
  let s1 := { s with subActive := true }
  match checkRequiredInputs s1.point with
  | some e => (s1, some e)
  | none => ({ s1 with awaitingScript := true }, none)

/-- Embedding of `_createPanorama(id)` at the point where
`ymaps.panorama.locate(this.point, { layer: this.layer })` has resolved with
`locateResult`: constructs
`new ymaps.panorama.Player(id, panorama[0], this.options)` — `panorama[0]`
being `locateResult.head?`, with no emptiness check — stores it in `_player`,
emits `{ ymaps, target: player }` on `ready`, then runs `addEventListeners`. -/
def createPanorama (id : String) (locateResult : List Panorama)
    (s : PanoramaState) : PanoramaState :=
  let player : Player := ⟨id, locateResult.head?, s.options⟩
  { s with
      player := some player
      nativeCalls := s.nativeCalls
        ++ [NativeCall.construct id locateResult.head? s.options]
        ++ addEventListenersCalls
      readyEmits := s.readyEmits ++ [⟨(), player⟩] }

/-- The script-readiness callback registered by `_initScript` through the rxjs
`Subscription` stored in `_sub`: per rxjs semantics a subscriber callback runs
only while the subscription is still subscribed, so after
`_sub.unsubscribe()` the arrival of readiness is a no-op. -/
def onScriptReady (id : String) (locateResult : List Panorama)
    (s : PanoramaState) : PanoramaState :=
  if s.subActive then createPanorama id locateResult s else s

/-- Embedding of `ngOnChanges(changes)`: delegates to `_updatePanorama`,
appending the native calls it performs to the trace. -/
def ngOnChanges (changes : SimpleChanges) (s : PanoramaState) :
    PanoramaState × Option ReconcileError :=
  let r := updatePanorama s.player changes
  ({ s with nativeCalls := s.nativeCalls ++ r.1 }, r.2)

/-- Embedding of `ngOnDestroy`: `this._sub.unsubscribe()` and nothing else —
no native call is made. -/
def ngOnDestroy (s : PanoramaState) : PanoramaState :=
  { s with subActive := false }

/-! Concrete example data used by counterexamples and witnesses. -/

/-- A concrete point value. -/
def examplePoint : Point := [55, 37]

/-- A concrete constructed player. -/
def examplePlayer : Player := ⟨"container-1", none, none⟩

/-- A change set touching both `point` and `options`. -/
def changesPointAndOptions : SimpleChanges :=
  ⟨some ⟨none, examplePoint⟩, none, some ⟨none, ⟨1⟩⟩⟩

/-- A change set touching only `point`. -/
def changesPointOnly : SimpleChanges :=
  ⟨some ⟨none, examplePoint⟩, none, none⟩

/-- A change set touching only `options`. -/
def changesOptionsOnly : SimpleChanges :=
  ⟨none, none, some ⟨none, ⟨2⟩⟩⟩

/-- A change set touching only `layer`. -/
def changesLayerOnly : SimpleChanges :=
  ⟨none, some ⟨none, PanoramaLayer.yandexAirPanorama⟩, none⟩

/-- A change set touching both `point` and `layer`. -/
def changesPointAndLayer : SimpleChanges :=
  ⟨some ⟨none, examplePoint⟩, some ⟨none, PanoramaLayer.yandexAirPanorama⟩, none⟩

/-- A state in which the widget reached Ready: mounted with a point, script
arrived, player constructed. -/
def readyStateExample : PanoramaState :=
  onScriptReady "container-1" [⟨5⟩]
    (ngOnInit (initialState (some examplePoint) none none)).1

/-! Theorems settling the claims. -/

/-- C1 counterexample: reconciliation is not atomic.  For the change set that
touches both `point` and `options` on an existing player, the options error is
raised, yet the native `moveTo` mutator has already been invoked — the call
list is not empty, contradicting the claim that no native mutator call is
applied for any field of a rejection-worthy change set. -/
theorem c1_counterexample :
    (updatePanorama (some examplePlayer) changesPointAndOptions).2
      = some ReconcileError.optionsAfterInit
    ∧ (updatePanorama (some examplePlayer) changesPointAndOptions).1
      = [NativeCall.moveTo examplePoint none]
    ∧ (updatePanorama (some examplePlayer) changesPointAndOptions).1 ≠ [] := by
  refine ⟨rfl, rfl, ?_⟩
  decide

/-- C1 (amended): reconciliation of a rejection-worthy change set (`options`
present, or `layer` present without `point`) always raises an error, and the
native calls made before the error are exactly the `moveTo` for a `point`
change in the same set (so a set with both `point` and `options` invokes
`moveTo` and then raises the error; a set with no `point` change applies
nothing). -/
theorem c1_partial_application (p : Player) (cs : SimpleChanges)
    (h : cs.options.isSome = true ∨ (cs.layer.isSome = true ∧ cs.point = none)) :
    (updatePanorama (some p) cs).2.isSome = true
    ∧ (updatePanorama (some p) cs).1
        = (match cs.point with
           | some point => [NativeCall.moveTo point.currentValue none]
           | none => []) := by
  rcases h with ho | ⟨hl, hp⟩
  · cases hpt : cs.point with
    | none =>
      by_cases hl : cs.layer.isSome = true
      · simp [updatePanorama, hpt, hl]
      · simp [updatePanorama, hpt, hl, ho]
    | some pc =>
      simp [updatePanorama, hpt, ho]
  · simp [updatePanorama, hp, hl]

/-- C1 witness: the amended theorem at the concrete point-and-options change
set. -/
theorem c1_partial_application_witness :
    (changesPointAndOptions.options.isSome = true
      ∨ (changesPointAndOptions.layer.isSome = true
          ∧ changesPointAndOptions.point = none))
    ∧ ((updatePanorama (some examplePlayer) changesPointAndOptions).2.isSome = true
        ∧ (updatePanorama (some examplePlayer) changesPointAndOptions).1
            = (match changesPointAndOptions.point with
               | some point => [NativeCall.moveTo point.currentValue none]
               | none => [])) :=
  ⟨Or.inl rfl,
    c1_partial_application examplePlayer changesPointAndOptions (Or.inl rfl)⟩

/-- C2: mounting with a point, then disposing before script readiness, leaves
a state with no player, no native call and no `ready` emission; a readiness
callback arriving after disposal is a no-op (the state is unchanged), and no
error is raised at any of these steps. -/
theorem c2_destroy_cancels_pending_wait (point : Point)
    (layer : Option PanoramaLayer) (opts : Option PlayerOptions)
    (id : String) (locateResult : List Panorama) :
    (ngOnInit (initialState (some point) layer opts)).2 = none
    ∧ onScriptReady id locateResult
        (ngOnDestroy (ngOnInit (initialState (some point) layer opts)).1)
      = ngOnDestroy (ngOnInit (initialState (some point) layer opts)).1
    ∧ (ngOnDestroy (ngOnInit (initialState (some point) layer opts)).1).player
      = none
    ∧ (ngOnDestroy (ngOnInit (initialState (some point) layer opts)).1).nativeCalls
      = []
    ∧ (ngOnDestroy (ngOnInit (initialState (some point) layer opts)).1).readyEmits
      = [] := by
  refine ⟨rfl, ?_, rfl, rfl, rfl⟩
  simp [ngOnInit, initialState, checkRequiredInputs, ngOnDestroy, onScriptReady]

/-- C3: a change set whose only entry is `point`, applied on an existing
player, produces exactly one native call — `moveTo` with the new value — and
no error; in particular no `construct` call appears, so the entity is not
reconstructed. -/
theorem c3_point_only_moves (p : Player) (cs : SimpleChanges)
    (pc : SimpleChange Point) (hp : cs.point = some pc)
    (hl : cs.layer = none) (ho : cs.options = none) :
    updatePanorama (some p) cs
      = ([NativeCall.moveTo pc.currentValue none], none) := by
  simp [updatePanorama, hp, hl, ho]

/-- C3 witness: the point-only change set at a concrete input. -/
theorem c3_point_only_moves_witness :
    changesPointOnly.point = some ⟨none, examplePoint⟩
    ∧ changesPointOnly.layer = none
    ∧ changesPointOnly.options = none
    ∧ updatePanorama (some examplePlayer) changesPointOnly
        = ([NativeCall.moveTo examplePoint none], none) :=
  ⟨rfl, rfl, rfl,
    c3_point_only_moves examplePlayer changesPointOnly ⟨none, examplePoint⟩
      rfl rfl rfl⟩

/-- C4: any change set containing `options`, applied on an existing player,
raises an error, and every native call of that pass is a point `moveTo` — no
call corresponding to the options field is ever made. -/
theorem c4_options_rejected (p : Player) (cs : SimpleChanges)
    (ho : cs.options.isSome = true) :
    (updatePanorama (some p) cs).2.isSome = true
    ∧ ∀ c ∈ (updatePanorama (some p) cs).1,
        ∃ pt, c = NativeCall.moveTo pt none := by
  have h := c1_partial_application p cs (Or.inl ho)
  refine ⟨h.1, ?_⟩
  intro c hc
  rw [h.2] at hc
  cases hpt : cs.point with
  | none => rw [hpt] at hc; simp at hc
  | some pc =>
    rw [hpt] at hc
    simp at hc
    exact ⟨pc.currentValue, hc⟩

/-- C4 witness: the options-only change set at a concrete input. -/
theorem c4_options_rejected_witness :
    changesOptionsOnly.options.isSome = true
    ∧ ((updatePanorama (some examplePlayer) changesOptionsOnly).2.isSome = true
        ∧ ∀ c ∈ (updatePanorama (some examplePlayer) changesOptionsOnly).1,
            ∃ pt, c = NativeCall.moveTo pt none) :=
  ⟨rfl, c4_options_rejected examplePlayer changesOptionsOnly rfl⟩

/-- C5: a change set containing `layer` but not `point`, applied on an
existing player, raises the layer-without-point error and performs no native
call at all — in particular none for the layer field. -/
theorem c5_layer_without_point (p : Player) (cs : SimpleChanges)
    (hl : cs.layer.isSome = true) (hp : cs.point = none) :
    updatePanorama (some p) cs = ([], some ReconcileError.layerWithoutPoint) := by
  simp [updatePanorama, hp, hl]

/-- C5 witness: the layer-only change set at a concrete input. -/
theorem c5_layer_without_point_witness :
    changesLayerOnly.layer.isSome = true
    ∧ changesLayerOnly.point = none
    ∧ updatePanorama (some examplePlayer) changesLayerOnly
        = ([], some ReconcileError.layerWithoutPoint) :=
  ⟨rfl, rfl, c5_layer_without_point examplePlayer changesLayerOnly rfl rfl⟩

/-- C6: at mount, a missing (`none`) point makes `ngOnInit` raise the
required-point error with no script wait registered and no native call made;
a present point makes `ngOnInit` succeed with the readiness wait registered. -/
theorem c6_required_point_checked_at_mount :
    (∀ (layer : Option PanoramaLayer) (opts : Option PlayerOptions),
        (ngOnInit (initialState none layer opts)).2 = some InitError.pointRequired
        ∧ (ngOnInit (initialState none layer opts)).1.awaitingScript = false
        ∧ (ngOnInit (initialState none layer opts)).1.nativeCalls = [])
    ∧ ∀ (point : Point) (layer : Option PanoramaLayer)
        (opts : Option PlayerOptions),
        (ngOnInit (initialState (some point) layer opts)).2 = none
        ∧ (ngOnInit (initialState (some point) layer opts)).1.awaitingScript
          = true :=
  ⟨fun _ _ => ⟨rfl, rfl, rfl⟩, fun _ _ _ => ⟨rfl, rfl⟩⟩

/-- C7: the listener table is explicit and total — it has the eleven
documented native event names in order, each name appearing exactly once
(names nodup), each mapped to its own output channel (emitters nodup),
registration issues exactly one `events.add` per name, and every dispatched
envelope carries the raw native event, the capturing player as target, and
the global API handle. -/
theorem c7_event_bridge_total :
    listeners.map Listener.name
      = ["destroy", "directionchange", "error", "fullscreenenter",
         "fullscreenexit", "markercollapse", "markerexpand",
         "markermouseenter", "markermouseleave", "panoramachange",
         "spanchange"]
    ∧ (listeners.map Listener.name).Nodup
    ∧ (listeners.map Listener.emitter).Nodup
    ∧ addEventListenersCalls = listeners.map (fun l => NativeCall.eventsAdd l.name)
    ∧ ∀ (p : Player) (e : NativeEvent),
        buildEnvelope p e = ⟨e, p, ()⟩ := by
  refine ⟨rfl, by decide, by decide, rfl, fun _ _ => rfl⟩

/-- C8 counterexample: from a Ready state (player constructed), `ngOnDestroy`
unsubscribes but issues no native call — in particular the native disposal
method `player.destroy` is never invoked, contradicting the claim. -/
theorem c8_counterexample :
    readyStateExample.player.isSome = true
    ∧ (ngOnDestroy readyStateExample).subActive = false
    ∧ NativeCall.playerDestroy ∉ (ngOnDestroy readyStateExample).nativeCalls := by
  refine ⟨rfl, rfl, ?_⟩
  decide

/-- C8 (amended): on disposal from any state the controller releases its
registered subscriptions (`_sub.unsubscribe()`), but it does not invoke the
native disposal method — it makes no native call at all and the player handle
is left as is. -/
theorem c8_destroy_releases_subscriptions_only (s : PanoramaState) :
    (ngOnDestroy s).subActive = false
    ∧ (ngOnDestroy s).nativeCalls = s.nativeCalls
    ∧ (ngOnDestroy s).player = s.player :=
  ⟨rfl, rfl, rfl⟩

/-- C9: when `locate` resolves with zero matches, the player is still
constructed (its panorama argument is `undefined`, i.e. `none`), the
construction call is issued, and the `ready` channel still emits — no error
value exists on this path. -/
theorem c9_empty_locate_still_constructs (point : Point)
    (layer : Option PanoramaLayer) (opts : Option PlayerOptions) (id : String) :
    (onScriptReady id [] (ngOnInit (initialState (some point) layer opts)).1).player
      = some ⟨id, none, opts⟩
    ∧ (onScriptReady id []
        (ngOnInit (initialState (some point) layer opts)).1).readyEmits
      = [⟨(), ⟨id, none, opts⟩⟩]
    ∧ NativeCall.construct id none opts
        ∈ (onScriptReady id []
            (ngOnInit (initialState (some point) layer opts)).1).nativeCalls := by
  refine ⟨?_, ?_, ?_⟩ <;>
    simp [ngOnInit, initialState, checkRequiredInputs, onScriptReady,
      createPanorama]

/-- C10: a change set containing both `layer` and `point` (and no `options`),
applied on an existing player, raises no error, and the only native call is
`moveTo` with the new point and no layer argument — the new layer value is
never applied to the entity. -/
theorem c10_layer_with_point_silently_dropped (p : Player) (cs : SimpleChanges)
    (pc : SimpleChange Point) (hp : cs.point = some pc)
    (hl : cs.layer.isSome = true) (ho : cs.options = none) :
    updatePanorama (some p) cs
      = ([NativeCall.moveTo pc.currentValue none], none) := by
  simp [updatePanorama, hp, hl, ho]

/-- C10 witness: the point-and-layer change set at a concrete input. -/
theorem c10_layer_with_point_silently_dropped_witness :
    changesPointAndLayer.point = some ⟨none, examplePoint⟩
    ∧ changesPointAndLayer.layer.isSome = true
    ∧ changesPointAndLayer.options = none
    ∧ updatePanorama (some examplePlayer) changesPointAndLayer
        = ([NativeCall.moveTo examplePoint none], none) :=
  ⟨rfl, rfl, rfl,
    c10_layer_with_point_silently_dropped examplePlayer changesPointAndLayer
      ⟨none, examplePoint⟩ rfl rfl rfl⟩

end YaPanorama
